import Mathlib

/-!
Shallow embedding of the resource-binding / scene-assembly core of
`src/SceneManager.cpp` (CS-330 SceneManager).

Modelling conventions:
* `float` values are modelled as real numbers (`ℝ`); GL texture names
  (`GLuint`) and slot indices (`int`) as `Int`.
* The 16-element array `m_textureIDs` together with the counter
  `m_loadedTextures` is modelled by the list `textureIDs` of the entries at
  indices `0 .. m_loadedTextures - 1`: every scan in the source is bounded by
  `m_loadedTextures`, and a successful `CreateGLTexture` writes the entry at
  index `m_loadedTextures` before incrementing it, so the live prefix is the
  whole observable registry state.  Note the source performs NO bound check
  before that write (see the capacity theorems below).
* The external OpenGL texture-object store is modelled by `glNextName` (the
  next fresh name `glGenTextures` hands out) and `glLive` (names of currently
  allocated texture objects); `glDeleteTextures` would remove a name from
  `glLive`, but the source never calls it.
* The external shader-uniform sink is modelled by the trace of typed writes a
  call pushes (`List UniformWrite`); `m_pShaderManager != NULL` is the flag
  `shaderPresent`.
-/

/-- Uniform name `g_ModelName` from the anonymous namespace of the source. -/
def g_ModelName : String := "model"

/-- Uniform name `g_ColorValueName` from the source. -/
def g_ColorValueName : String := "objectColor"

/-- Uniform name `g_TextureValueName` from the source. -/
def g_TextureValueName : String := "objectTexture"

/-- Uniform name `g_UseTextureName` from the source. -/
def g_UseTextureName : String := "bUseTexture"

/-- One registered texture: the struct stored in `m_textureIDs` (a tag and the
GL texture name). -/
structure TextureEntry where
  tag : String
  ID : Int
deriving DecidableEq, Repr

/-- `OBJECT_MATERIAL`: tag, diffuse color, specular color, shininess.
Color components and shininess are C++ floats, modelled over `ℝ`. -/
structure OBJECT_MATERIAL where
  diffuseColor : Fin 3 → ℝ
  specularColor : Fin 3 → ℝ
  shininess : ℝ
  tag : String

/-- One typed write into the external shader-uniform sink
(`ShaderManager::set...Value`).  `setIntValue` calls that pass a C++ `bool`
are recorded with the converted `Int` value (`false` ↦ 0, `true` ↦ 1). -/
inductive UniformWrite where
  | setMat4 (name : String) (m : Matrix (Fin 4) (Fin 4) ℝ)
  | setInt (name : String) (v : Int)
  | setSampler2D (name : String) (v : Int)
  | setFloat (name : String) (v : ℝ)
  | setVec2 (name : String) (v : Fin 2 → ℝ)
  | setVec3 (name : String) (v : Fin 3 → ℝ)
  | setVec4 (name : String) (v : Fin 4 → ℝ)

/-- The state of one `SceneManager` object together with the external GL
texture-object store. -/
structure SceneState where
  /-- Live prefix of `m_textureIDs` (length = `m_loadedTextures`). -/
  textureIDs : List TextureEntry
  /-- `m_objectMaterials`. -/
  objectMaterials : List OBJECT_MATERIAL
  /-- Whether `m_pShaderManager != NULL`. -/
  shaderPresent : Bool
  /-- Next fresh texture name `glGenTextures` returns. -/
  glNextName : Int
  /-- Names of currently allocated GL texture objects. -/
  glLive : List Int
  /-- Texture name bound on each texture unit by `BindGLTextures`
  (index = unit). -/
  glBoundUnits : List Int

/-- `m_loadedTextures` of a state. -/
def SceneState.loadedTextures (s : SceneState) : Nat := s.textureIDs.length

namespace SceneManager

/-- Result of the external `stbi_load` decoder on one image file: pixel
dimensions and channel count (the pixel buffer itself is irrelevant to the
registry logic). -/
structure DecodeResult where
  width : Int
  height : Int
  colorChannels : Int
deriving DecidableEq, Repr

/-- `SceneManager::CreateGLTexture`.  `decode` is the outcome of `stbi_load`
on `filename` (`none` = decode failure).  On a successful decode the source
calls `glGenTextures` (one fresh name) and configures it; if the channel
count is 3 or 4 it uploads the pixels, registers
`{ID := textureID, tag := tag}` at index `m_loadedTextures` — with no
capacity check whatsoever — increments the counter and returns `true`.
If the channel count is anything else it returns `false` with the registry
untouched (the generated GL texture object is leaked).  On decode failure it
returns `false` with everything untouched. -/
def CreateGLTexture (s : SceneState) (decode : Option DecodeResult)
    (tag : String) : Bool × SceneState :=
  match decode with
  | some img =>
    let textureID : Int := s.glNextName
    let s1 : SceneState :=
      { s with glNextName := s.glNextName + 1, glLive := s.glLive ++ [textureID] }
    if img.colorChannels = 3 ∨ img.colorChannels = 4 then
      (true, { s1 with textureIDs := s1.textureIDs ++ [⟨tag, textureID⟩] })
    else
      (false, s1)
  | none => (false, s)

/-- `SceneManager::BindGLTextures`: for `i < m_loadedTextures`, bind
`m_textureIDs[i].ID` on texture unit `i`.  No registry mutation. -/
def BindGLTextures (s : SceneState) : SceneState :=
  { s with glBoundUnits := s.textureIDs.map (fun e => e.ID) }

/-- `SceneManager::DestroyGLTextures`.  The loop body is
`glGenTextures(1, &m_textureIDs[i].ID); m_textureIDs[i].ID = 0;` — it
GENERATES one fresh GL texture object per occupied slot (never deleting the
old one) and then zeroes the stored name; finally `m_loadedTextures = 0`. -/
def DestroyGLTextures (s : SceneState) : SceneState :=
  let n := s.textureIDs.length
  { s with
    glNextName := s.glNextName + n,
    glLive := s.glLive ++ (List.range n).map (fun i => s.glNextName + i),
    textureIDs := [] }

/-- Scan loop of `SceneManager::FindTextureID`: first entry whose tag
compares equal wins; `idx` is unused here but mirrors the running index. -/
def findTextureIDLoop : List TextureEntry → String → Int
  | [], _ => -1
  | e :: rest, tag => if e.tag = tag then e.ID else findTextureIDLoop rest tag

/-- `SceneManager::FindTextureID`: linear scan over the live entries,
returning the stored GL name of the first tag match, `-1` on miss. -/
def FindTextureID (s : SceneState) (tag : String) : Int :=
  findTextureIDLoop s.textureIDs tag

/-- Scan loop of `SceneManager::FindTextureSlot`, carrying the running
index. -/
def findTextureSlotLoop : List TextureEntry → String → Int → Int
  | [], _, _ => -1
  | e :: rest, tag, idx =>
      if e.tag = tag then idx else findTextureSlotLoop rest tag (idx + 1)

/-- `SceneManager::FindTextureSlot`: linear scan over the live entries,
returning the 0-based index of the first tag match, `-1` on miss. -/
def FindTextureSlot (s : SceneState) (tag : String) : Int :=
  findTextureSlotLoop s.textureIDs tag 0

/-- Scan loop of `SceneManager::FindMaterial`: on the first tag match, copy
`diffuseColor`, `specularColor`, `shininess` (not the tag) into the caller's
record and stop; otherwise move on, leaving the record untouched. -/
def findMaterialLoop : List OBJECT_MATERIAL → String → OBJECT_MATERIAL →
    OBJECT_MATERIAL
  | [], _, m => m
  | e :: rest, tag, m =>
      if e.tag = tag then
        { m with diffuseColor := e.diffuseColor,
                 specularColor := e.specularColor,
                 shininess := e.shininess }
      else findMaterialLoop rest tag m

/-- `SceneManager::FindMaterial`: returns `false` (record untouched) when the
material list is empty; otherwise runs the scan loop and returns `true`
REGARDLESS of whether any tag matched. -/
def FindMaterial (s : SceneState) (tag : String) (material : OBJECT_MATERIAL) :
    Bool × OBJECT_MATERIAL :=
  if s.objectMaterials.length = 0 then
    (false, material)
  else
    (true, findMaterialLoop s.objectMaterials tag material)

end SceneManager

/-!
The GLM calls used by `SetTransformations` (`glm::scale`, `glm::rotate`,
`glm::translate`, `glm::radians`).  GLM is an external library; these follow
its documented formulas.  Matrices are written mathematically (row, column):
entry `(i, j)` here is GLM's column-major `m[j][i]`.
-/

/-- `glm::radians`: degrees times π / 180. -/
noncomputable def glmRadians (degrees : ℝ) : ℝ := degrees * (Real.pi / 180)

/-- `glm::scale(v)`: diagonal scale matrix in homogeneous coordinates. -/
noncomputable def glmScale (v : Fin 3 → ℝ) : Matrix (Fin 4) (Fin 4) ℝ :=
  !![v 0, 0, 0, 0;
     0, v 1, 0, 0;
     0, 0, v 2, 0;
     0, 0, 0, 1]

/-- `glm::translate(v)`: identity with translation in the fourth column. -/
noncomputable def glmTranslate (v : Fin 3 → ℝ) : Matrix (Fin 4) (Fin 4) ℝ :=
  !![1, 0, 0, v 0;
     0, 1, 0, v 1;
     0, 0, 1, v 2;
     0, 0, 0, 1]

/-- Normalization of the rotation axis as `glm::rotate` performs it. -/
noncomputable def glmNormalize (v : Fin 3 → ℝ) : Fin 3 → ℝ :=
  fun i => v i / Real.sqrt (v 0 * v 0 + v 1 * v 1 + v 2 * v 2)

/-- `glm::rotate(angle, axis)`: the axis–angle (Rodrigues) rotation matrix GLM
builds from `c = cos angle`, `s = sin angle`, the normalized axis and
`temp = (1 - c) · axis`, extended to homogeneous coordinates. -/
noncomputable def glmRotate (angle : ℝ) (v : Fin 3 → ℝ) :
    Matrix (Fin 4) (Fin 4) ℝ :=
  let c := Real.cos angle
  let s := Real.sin angle
  let axis := glmNormalize v
  let temp : Fin 3 → ℝ := fun i => (1 - c) * axis i
  !![c + temp 0 * axis 0, temp 1 * axis 0 - s * axis 2,
       temp 2 * axis 0 + s * axis 1, 0;
     temp 0 * axis 1 + s * axis 2, c + temp 1 * axis 1,
       temp 2 * axis 1 - s * axis 0, 0;
     temp 0 * axis 2 - s * axis 1, temp 1 * axis 2 + s * axis 0,
       c + temp 2 * axis 2, 0;
     0, 0, 0, 1]

namespace SceneManager

/-- The matrix `modelView` computed by `SceneManager::SetTransformations`:
`translation * rotationZ * rotationY * rotationX * scale`, each factor built
by the corresponding GLM call on the degree inputs converted with
`glm::radians` and the unit axes `(1,0,0)`, `(0,1,0)`, `(0,0,1)`. -/
noncomputable def modelViewMatrix (scaleXYZ : Fin 3 → ℝ)
    (XrotationDegrees YrotationDegrees ZrotationDegrees : ℝ)
    (positionXYZ : Fin 3 → ℝ) : Matrix (Fin 4) (Fin 4) ℝ :=
  glmTranslate positionXYZ *
    glmRotate (glmRadians ZrotationDegrees) ![0, 0, 1] *
    glmRotate (glmRadians YrotationDegrees) ![0, 1, 0] *
    glmRotate (glmRadians XrotationDegrees) ![1, 0, 0] *
    glmScale scaleXYZ

/-- `SceneManager::SetTransformations`: computes `modelView` and, only when
`m_pShaderManager` is non-null, pushes it as the `"model"` mat4 uniform. -/
noncomputable def SetTransformations (s : SceneState) (scaleXYZ : Fin 3 → ℝ)
    (XrotationDegrees YrotationDegrees ZrotationDegrees : ℝ)
    (positionXYZ : Fin 3 → ℝ) : List UniformWrite :=
  if s.shaderPresent then
    [.setMat4 g_ModelName
      (modelViewMatrix scaleXYZ XrotationDegrees YrotationDegrees
        ZrotationDegrees positionXYZ)]
  else []

/-- `SceneManager::SetShaderColor`: when `m_pShaderManager` is non-null,
pushes `bUseTexture := false` (as int 0) then the RGBA color vec4. -/
def SetShaderColor (s : SceneState)
    (redColorValue greenColorValue blueColorValue alphaValue : ℝ) :
    List UniformWrite :=
  if s.shaderPresent then
    [.setInt g_UseTextureName 0,
     .setVec4 g_ColorValueName
       ![redColorValue, greenColorValue, blueColorValue, alphaValue]]
  else []

/-- `SceneManager::SetShaderTexture`: when `m_pShaderManager` is non-null,
pushes `bUseTexture := true` (as int 1) then the slot index returned by
`FindTextureSlot` (−1 on miss, forwarded as-is) as the sampler uniform. -/
def SetShaderTexture (s : SceneState) (textureTag : String) :
    List UniformWrite :=
  if s.shaderPresent then
    [.setInt g_UseTextureName 1,
     .setSampler2D g_TextureValueName (FindTextureSlot s textureTag)]
  else []

/-- `SceneManager::SetTextureUVScale`: when `m_pShaderManager` is non-null,
pushes the `"UVscale"` vec2. -/
def SetTextureUVScale (s : SceneState) (u v : ℝ) : List UniformWrite :=
  if s.shaderPresent then [.setVec2 "UVscale" ![u, v]] else []

/-- `SceneManager::SetShaderMaterial`.  The local `OBJECT_MATERIAL material;`
is default-constructed with indeterminate contents, modelled by the parameter
`junk`.  When the material list is non-empty, `FindMaterial` is called (its
result record replaces the local) and — since it returns `true` whenever the
list is non-empty, matched or not — the three material uniforms are pushed
from that record.  NOTE: unlike the other setters, the source performs NO
null check on `m_pShaderManager` here. -/
def SetShaderMaterial (s : SceneState) (junk : OBJECT_MATERIAL)
    (materialTag : String) : List UniformWrite :=
  if s.objectMaterials.length > 0 then
    let found := FindMaterial s materialTag junk
    if found.1 then
      [.setVec3 "material.diffuseColor" found.2.diffuseColor,
       .setVec3 "material.specularColor" found.2.specularColor,
       .setFloat "material.shininess" found.2.shininess]
    else []
  else []

end SceneManager

/-- Right-handed rotation about the X axis in homogeneous coordinates,
written from the spec's words (`RotateX`) for the refinement theorem. -/
noncomputable def specRotateX (a : ℝ) : Matrix (Fin 4) (Fin 4) ℝ :=
  !![1, 0, 0, 0;
     0, Real.cos a, -(Real.sin a), 0;
     0, Real.sin a, Real.cos a, 0;
     0, 0, 0, 1]

/-- Right-handed rotation about the Y axis in homogeneous coordinates,
written from the spec's words (`RotateY`) for the refinement theorem. -/
noncomputable def specRotateY (a : ℝ) : Matrix (Fin 4) (Fin 4) ℝ :=
  !![Real.cos a, 0, Real.sin a, 0;
     0, 1, 0, 0;
     -(Real.sin a), 0, Real.cos a, 0;
     0, 0, 0, 1]

/-- Right-handed rotation about the Z axis in homogeneous coordinates,
written from the spec's words (`RotateZ`) for the refinement theorem. -/
noncomputable def specRotateZ (a : ℝ) : Matrix (Fin 4) (Fin 4) ℝ :=
  !![Real.cos a, -(Real.sin a), 0, 0;
     Real.sin a, Real.cos a, 0, 0;
     0, 0, 1, 0;
     0, 0, 0, 1]

/-- The spec's model-matrix formula
`M = Translate(t) · RotateZ(rz) · RotateY(ry) · RotateX(rx) · Scale(s)`
with degrees converted to radians, written for comparison with the
source-derived `SceneManager.modelViewMatrix`. -/
noncomputable def specModelMatrix (scaleXYZ : Fin 3 → ℝ) (rx ry rz : ℝ)
    (positionXYZ : Fin 3 → ℝ) : Matrix (Fin 4) (Fin 4) ℝ :=
  glmTranslate positionXYZ *
    specRotateZ (glmRadians rz) *
    specRotateY (glmRadians ry) *
    specRotateX (glmRadians rx) *
    glmScale scaleXYZ

/-- One draw call on the external `ShapeMeshes` provider, recorded verbatim
from the call site: the mesh kind and, where the source passes explicit
orientation-flag arguments, those arguments (`...Default` records a call with
the declaration's default arguments). -/
inductive DrawCall where
  | box
  | plane
  | sphere
  | halfSphere
  | pyramid4
  | cone
  | cylinder (f1 f2 f3 : Bool)
  | cylinderDefault
  | taperedCylinder (f1 f2 f3 : Bool)
  | taperedCylinderDefault
deriving DecidableEq, Repr

/-- Appearance of one scene element: either a texture tag
(`SetShaderTexture`) or a flat RGBA color (`SetShaderColor`). -/
inductive Appearance where
  | texture (tag : String)
  | color (r g b a : ℝ)

/-- One resolve-and-draw block of `SceneManager::RenderScene`: the transform
arguments, the appearance, the material tag and the draw call. -/
structure SceneElement where
  scaleXYZ : Fin 3 → ℝ
  rx : ℝ
  ry : ℝ
  rz : ℝ
  positionXYZ : Fin 3 → ℝ
  appearance : Appearance
  materialTag : String
  draw : DrawCall

/-- The fixed ordered element sequence of `SceneManager::RenderScene`
(lines 582–819 of the source), in source order. -/
noncomputable def sceneElements : List SceneElement :=
  [ -- Tray
    ⟨![9.5, 0.5, 5.5], 0, 0, 0, ![-1.0, -0.9, 6.0],
      .texture "planeTexture", "matte", .box⟩,
    -- Sugar container: bottom
    ⟨![1.5, 1.7, 1.5], 0, 45, 0, ![2.0, 0.2, 5.0],
      .texture "redTexture", "shinier", .box⟩,
    -- Sugar container: middle (pyramid)
    ⟨![1.5, 1.5, 1.5], 0, 45, 0, ![2.0, 1.8, 5.0],
      .texture "midTexture", "shinier", .pyramid4⟩,
    -- Sugar container: top box
    ⟨![1.0, 0.8, 1.0], 0, 45, 0, ![2.0, 1.9, 5.0],
      .texture "topTexture", "shinier", .box⟩,
    -- Sugar container: cork on top
    ⟨![0.7, 0.4, 0.7], 0, 45, 0, ![2.0, 2.3, 5.0],
      .texture "corkTexture", "matte", .box⟩,
    -- Gold cup
    ⟨![0.7, 1.2, 0.7], 0, 45, 0, ![2.5, -0.6, 7.4],
      .texture "cupTexture", "gold", .cylinder false true true⟩,
    -- Coffee pot: base
    ⟨![0.9, 1.0, 0.9], 0, 0, 0, ![-0.9, -0.7, 5.3],
      .texture "pot2", "shinier", .cylinder false true true⟩,
    -- Coffee pot: middle
    ⟨![0.9, 2.8, 0.9], 0, 0, 0, ![-0.9, 0.2, 5.3],
      .texture "pot2", "shinier", .taperedCylinder false false true⟩,
    -- Coffee pot: top
    ⟨![0.9, 1.0, 0.9], 180, 0, 0, ![-0.9, 3.7, 5.3],
      .texture "pot1", "matte", .taperedCylinder false false true⟩,
    -- Coffee pot: handle short
    ⟨![0.4, 0.5, 0.5], -78, 0, 0, ![-0.9, 2.3, 4.5],
      .texture "gripTexture", "matte", .box⟩,
    -- Coffee pot: handle long
    ⟨![0.4, 0.5, 1.6], -78, 0, 0, ![-0.9, 2.0, 4.1],
      .texture "gripTexture", "matte", .box⟩,
    -- Bottle
    ⟨![0.8, 2.5, 0.8], 0, 0, 0, ![-2.9, -0.7, 5.3],
      .texture "bottleTexture", "shinier", .cylinderDefault⟩,
    -- Bottle: middle
    ⟨![0.8, 0.5, 0.8], 0, 0, 0, ![-2.9, 1.8, 5.3],
      .texture "bottleTexture", "shinier", .taperedCylinderDefault⟩,
    -- Bottle: top
    ⟨![0.4, 0.5, 0.4], 0, 0, 0, ![-2.9, 2.3, 5.3],
      .texture "bottleTexture", "shinier", .cylinder false true true⟩,
    -- Cone object
    ⟨![0.8, 2.5, 0.8], 0, 0, 0, ![-4.6, 0.0, 5.3],
      .texture "corkTexture", "matte", .cone⟩,
    -- Cone object: bottom
    ⟨![0.8, 0.8, 0.8], 180, 0, 0, ![-4.6, -0.02, 5.3],
      .texture "corkTexture", "matte", .halfSphere⟩,
    -- Container base: middle box
    ⟨![3.8, 0.7, 1.5], 0, 0, 0, ![-1.5, -0.5, 7.5],
      .texture "whiteTexture", "shinier", .box⟩,
    -- Container base: edge cylinder 1
    ⟨![0.77, 0.7, 0.77], 0, 0, 0, ![-3.2, -0.85, 7.5],
      .texture "whiteTexture", "shinier", .cylinderDefault⟩,
    -- Container base: edge cylinder 2
    ⟨![0.77, 0.7, 0.77], 0, 0, 0, ![0.2, -0.85, 7.5],
      .texture "whiteTexture", "shinier", .cylinderDefault⟩,
    -- Container lid: middle box
    ⟨![3.8, 0.3, 1.58], 0, 0, 0, ![-1.5, 0.0, 7.5],
      .texture "lidTexture", "shinier", .box⟩,
    -- Container lid: edge cylinder 1
    ⟨![0.8, 0.3, 0.8], 0, 0, 0, ![-3.2, -0.15, 7.5],
      .texture "lidTexture", "shinier", .cylinderDefault⟩,
    -- Container lid: edge cylinder 2
    ⟨![0.8, 0.3, 0.8], 0, 0, 0, ![0.2, -0.15, 7.5],
      .texture "lidTexture", "shinier", .cylinderDefault⟩,
    -- Container lid: knob on top
    ⟨![0.3, 0.2, 0.3], 0, 0, 0, ![-1.5, 0.15, 7.5],
      .texture "knobTexture", "shinier", .cylinderDefault⟩,
    -- Backdrop (wall)
    ⟨![11.0, 0.5, 7.0], 90, 0, 0, ![-1.0, 5.45, -0.97],
      .texture "wall", "matte", .plane⟩,
    -- Base (table)
    ⟨![22.0, 0.5, 15.0], 0, 0, 0, ![-1.0, -1.4, 6.0],
      .texture "planeTexture", "shinier", .box⟩,
    -- Glass sphere
    ⟨![0.8, 0.8, 0.8], 0, 0, 0, ![-5.1, 0.0, 7.3],
      .color 0.1 0.2 0.3 0.8, "glass", .sphere⟩ ]

/-- One event of the render trace: a uniform push or a draw invocation. -/
inductive RenderEvent where
  | uniform (w : UniformWrite)
  | draw (d : DrawCall)

namespace SceneManager

/-- The trace one element block of `RenderScene` produces: the
`SetTransformations` pushes, then the appearance pushes (`SetShaderTexture`
or `SetShaderColor`), then the `SetShaderMaterial` pushes, then the draw
call.  `junk` models the indeterminate default-constructed local of
`SetShaderMaterial`. -/
noncomputable def renderElement (s : SceneState) (junk : OBJECT_MATERIAL)
    (e : SceneElement) : List RenderEvent :=
  (SetTransformations s e.scaleXYZ e.rx e.ry e.rz e.positionXYZ).map .uniform
    ++ (match e.appearance with
        | .texture tag => (SetShaderTexture s tag).map .uniform
        | .color r g b a => (SetShaderColor s r g b a).map .uniform)
    ++ (SetShaderMaterial s junk e.materialTag).map .uniform
    ++ [.draw e.draw]

/-- `SceneManager::RenderScene`: first `BindGLTextures` (the only
state change in the render phase — it touches texture-unit bindings, never
the registries), then the fixed element sequence, each block producing its
uniform pushes and one draw call.  Returns the post-call state and the
ordered trace of uniform pushes and draw invocations. -/
noncomputable def RenderScene (s : SceneState) (junk : OBJECT_MATERIAL) :
    SceneState × List RenderEvent :=
  let s1 := BindGLTextures s
  (s1, (sceneElements.map (renderElement s1 junk)).flatten)

/-- Folding a sequence of `CreateGLTexture` calls (one per image/tag pair,
each with its decode outcome) over a starting state, keeping only the final
state — the shape of `LoadSceneTextures`. -/
def registerSequence (s : SceneState)
    (imgs : List (DecodeResult × String)) : SceneState :=
  imgs.foldl (fun st p => (CreateGLTexture st (some p.1) p.2).2) s

end SceneManager

/-!
Concrete fixtures: the material table of `DefineObjectMaterials` and small
concrete states used to instantiate the theorems below.
-/

/-- `glossMaterial` from `DefineObjectMaterials` (tag `"shinier"`). -/
noncomputable def glossMaterial : OBJECT_MATERIAL :=
  ⟨![0.4, 0.4, 0.4], ![1.0, 1.0, 1.0], 128.0, "shinier"⟩

/-- `matteMaterial` from `DefineObjectMaterials` (tag `"matte"`). -/
noncomputable def matteMaterial : OBJECT_MATERIAL :=
  ⟨![0.3, 0.3, 0.4], ![0.0, 0.0, 0.0], 0.05, "matte"⟩

/-- `goldMaterial` from `DefineObjectMaterials` (tag `"gold"`). -/
noncomputable def goldMaterial : OBJECT_MATERIAL :=
  ⟨![0.4, 0.4, 0.4], ![1.0, 1.0, 1.0], 256.0, "gold"⟩

/-- `glassMaterial` from `DefineObjectMaterials` (tag `"glass"`). -/
noncomputable def glassMaterial : OBJECT_MATERIAL :=
  ⟨![0.1, 0.2, 0.3], ![1.0, 1.0, 1.0], 256.0, "glass"⟩

namespace SceneManager

/-- `SceneManager::DefineObjectMaterials`: pushes the four materials onto
`m_objectMaterials` in source order. -/
noncomputable def DefineObjectMaterials (s : SceneState) : SceneState :=
  { s with objectMaterials :=
      s.objectMaterials ++ [glossMaterial, matteMaterial, goldMaterial, glassMaterial] }

end SceneManager

/-- The state the `SceneManager` constructor establishes: no live texture
entries (`m_loadedTextures = 0`), no materials, shader-manager pointer as
given; the GL store starts empty with `0` as the first fresh name. -/
def initialState (shader : Bool) : SceneState :=
  ⟨[], [], shader, 0, [], []⟩

/-- A stand-in for the indeterminate contents of the default-constructed
local `OBJECT_MATERIAL material;` in `SetShaderMaterial`. -/
noncomputable def junkMaterial : OBJECT_MATERIAL :=
  ⟨![0, 0, 0], ![0, 0, 0], 0, ""⟩

/-- A decode outcome with 3 color channels (RGB). -/
def img3 : SceneManager.DecodeResult := ⟨64, 64, 3⟩

/-- A decode outcome with 4 color channels (RGBA). -/
def img4 : SceneManager.DecodeResult := ⟨64, 64, 4⟩

/-- A decode outcome with 2 color channels (unsupported by the source). -/
def img2 : SceneManager.DecodeResult := ⟨64, 64, 2⟩

/-- A state whose 16 texture slots are all occupied (distinct tags
`"t0" .. "t15"`, GL names `0 .. 15`). -/
def full16State : SceneState :=
  ⟨(List.range 16).map (fun i => ⟨"t" ++ toString i, (i : Int)⟩),
   [], true, 16, (List.range 16).map (fun i => (i : Int)), []⟩

/-- A state with one registered texture (tag `"brick"`, GL name 7). -/
def oneTextureState : SceneState :=
  ⟨[⟨"brick", 7⟩], [], true, 8, [7], []⟩

/-- A state with the four scene materials defined and no textures. -/
noncomputable def materialState : SceneState :=
  SceneManager.DefineObjectMaterials (initialState true)

/-!
Theorems.  Shared lemmas about the scan loops and the registration fold come
first, then one theorem per claim (with witnesses where the statement
carries hypotheses).
-/

lemma findTextureSlotLoop_miss (l : List TextureEntry) (tag : String) (k : Int)
    (h : ∀ e ∈ l, e.tag ≠ tag) :
    SceneManager.findTextureSlotLoop l tag k = -1 := by
  induction l generalizing k with
  | nil => rfl
  | cons e rest ih =>
    simp only [SceneManager.findTextureSlotLoop]
    rw [if_neg (h e (List.mem_cons_self e rest))]
    exact ih (k + 1) (fun e' he' => h e' (List.mem_cons_of_mem _ he'))

lemma findTextureIDLoop_miss (l : List TextureEntry) (tag : String)
    (h : ∀ e ∈ l, e.tag ≠ tag) :
    SceneManager.findTextureIDLoop l tag = -1 := by
  induction l with
  | nil => rfl
  | cons e rest ih =>
    simp only [SceneManager.findTextureIDLoop]
    rw [if_neg (h e (List.mem_cons_self e rest))]
    exact ih (fun e' he' => h e' (List.mem_cons_of_mem _ he'))

lemma findTextureSlotLoop_hit :
    ∀ (l : List TextureEntry) (k : Int) (i : Nat) (hi : i < l.length),
      (∀ j (hj : j < i), (l.get ⟨j, hj.trans hi⟩).tag ≠ (l.get ⟨i, hi⟩).tag) →
      SceneManager.findTextureSlotLoop l (l.get ⟨i, hi⟩).tag k = k + i := by
  intro l
  induction l with
  | nil => intro k i hi; simp at hi
  | cons e rest ih =>
    intro k i hi hdist
    cases i with
    | zero => simp [SceneManager.findTextureSlotLoop]
    | succ i' =>
      have hi' : i' < rest.length := Nat.lt_of_succ_lt_succ hi
      have hne : e.tag ≠ ((e :: rest).get ⟨i' + 1, hi⟩).tag :=
        hdist 0 (Nat.succ_pos i')
      have hget : ((e :: rest).get ⟨i' + 1, hi⟩) = rest.get ⟨i', hi'⟩ := rfl
      simp only [SceneManager.findTextureSlotLoop, hget] at hne ⊢
      rw [if_neg hne]
      have hrec := ih (k + 1) i' hi'
        (fun j hj => hdist (j + 1) (Nat.succ_lt_succ hj))
      rw [hrec]
      push_cast
      ring

lemma registerSequence_tags (imgs : List (SceneManager.DecodeResult × String)) :
    ∀ s : SceneState,
      (∀ p ∈ imgs, p.1.colorChannels = 3 ∨ p.1.colorChannels = 4) →
      (SceneManager.registerSequence s imgs).textureIDs.map (fun e => e.tag)
        = s.textureIDs.map (fun e => e.tag) ++ imgs.map Prod.snd := by
  induction imgs with
  | nil => intro s _; simp [SceneManager.registerSequence]
  | cons p rest ih =>
    intro s hok
    have hp := hok p (List.mem_cons_self _ _)
    have hstep : (SceneManager.CreateGLTexture s (some p.1) p.2).2.textureIDs
        = s.textureIDs ++ [⟨p.2, s.glNextName⟩] := by
      simp [SceneManager.CreateGLTexture, hp]
    show (SceneManager.registerSequence
        ((SceneManager.CreateGLTexture s (some p.1) p.2).2) rest).textureIDs.map
          (fun e => e.tag) = _
    rw [ih _ (fun q hq => hok q (List.mem_cons_of_mem _ hq)), hstep]
    simp

lemma findMaterialLoop_miss (l : List OBJECT_MATERIAL) (tag : String)
    (m : OBJECT_MATERIAL) (h : ∀ e ∈ l, e.tag ≠ tag) :
    SceneManager.findMaterialLoop l tag m = m := by
  induction l with
  | nil => rfl
  | cons e rest ih =>
    simp only [SceneManager.findMaterialLoop]
    rw [if_neg (h e (List.mem_cons_self e rest))]
    exact ih (fun e' he' => h e' (List.mem_cons_of_mem _ he'))

lemma setShaderMaterial_miss (s : SceneState) (junk : OBJECT_MATERIAL)
    (tag : String) (hne : s.objectMaterials ≠ [])
    (hmiss : ∀ e ∈ s.objectMaterials, e.tag ≠ tag) :
    SceneManager.SetShaderMaterial s junk tag =
      [.setVec3 "material.diffuseColor" junk.diffuseColor,
       .setVec3 "material.specularColor" junk.specularColor,
       .setFloat "material.shininess" junk.shininess] := by
  have hlen : 0 < s.objectMaterials.length := List.length_pos.mpr hne
  have hlen0 : ¬ s.objectMaterials.length = 0 := Nat.pos_iff_ne_zero.mp hlen
  simp only [SceneManager.SetShaderMaterial, SceneManager.FindMaterial,
    hlen, if_pos, if_neg hlen0, findMaterialLoop_miss _ _ _ hmiss, if_true]

lemma materialState_tags :
    ∀ e ∈ materialState.objectMaterials, e.tag ≠ "nope" := by
  intro e he
  simp only [materialState, SceneManager.DefineObjectMaterials, initialState,
    List.nil_append, List.mem_cons, List.not_mem_nil, or_false] at he
  rcases he with h | h | h | h <;> subst h <;> decide

/-- C4: a sequence of ≤ 16 successful `CreateGLTexture` calls (decodable
images with 3 or 4 channels) with pairwise-distinct tags, run from the
constructor state: `FindTextureSlot` on the i-th registered tag returns `i`
(first match of the linear scan in registration order), and on any
unregistered tag returns the sentinel `-1`. -/
theorem claim_C4_lookup_slot_registration_order
    (imgs : List (SceneManager.DecodeResult × String))
    (hok : ∀ p ∈ imgs, p.1.colorChannels = 3 ∨ p.1.colorChannels = 4)
    (hdist : (imgs.map Prod.snd).Nodup)
    (hlen : imgs.length ≤ 16) :
    (∀ i (hi : i < imgs.length),
      SceneManager.FindTextureSlot
        (SceneManager.registerSequence (initialState true) imgs)
        (imgs.get ⟨i, hi⟩).2 = i)
    ∧ (∀ tag, tag ∉ imgs.map Prod.snd →
      SceneManager.FindTextureSlot
        (SceneManager.registerSequence (initialState true) imgs) tag = -1) := by
  have htags : (SceneManager.registerSequence (initialState true)
      imgs).textureIDs.map (fun e => e.tag) = imgs.map Prod.snd := by
    rw [registerSequence_tags imgs (initialState true) hok]
    simp [initialState]
  set l := (SceneManager.registerSequence (initialState true) imgs).textureIDs
    with hl
  have hlenl : l.length = imgs.length := by
    have := congrArg List.length htags
    simpa using this
  have hgettag : ∀ j (hj : j < l.length),
      (l.get ⟨j, hj⟩).tag = (imgs.get ⟨j, hlenl ▸ hj⟩).2 := by
    intro j hj
    have hj2 : j < imgs.length := hlenl ▸ hj
    have h1 := congrArg (fun t : List String => t[j]?) htags
    simp only [List.getElem?_map] at h1
    rw [List.getElem?_eq_getElem hj, List.getElem?_eq_getElem hj2] at h1
    simpa [List.get_eq_getElem] using h1
  constructor
  · intro i hi
    have hil : i < l.length := by omega
    have hpref : ∀ j (hj : j < i),
        (l.get ⟨j, hj.trans hil⟩).tag ≠ (l.get ⟨i, hil⟩).tag := by
      intro j hj
      have hpair := (List.pairwise_iff_get.mp hdist)
        ⟨j, by simpa using hj.trans hi⟩ ⟨i, by simpa using hi⟩ (by simpa using hj)
      rw [hgettag j (hj.trans hil), hgettag i hil]
      simpa using hpair
    have hh := findTextureSlotLoop_hit l 0 i hil hpref
    rw [hgettag i hil] at hh
    unfold SceneManager.FindTextureSlot
    rw [← hl, hh]
    omega
  · intro tag htag
    unfold SceneManager.FindTextureSlot
    rw [← hl]
    apply findTextureSlotLoop_miss
    intro e he hetag
    apply htag
    rw [← htags, ← hetag]
    exact List.mem_map_of_mem _ he

/-- Witness for C4 at a concrete two-image registration. -/
theorem claim_C4_witness :
    SceneManager.FindTextureSlot
      (SceneManager.registerSequence (initialState true) [(img3, "a"), (img4, "b")])
      "b" = 1
    ∧ SceneManager.FindTextureSlot
      (SceneManager.registerSequence (initialState true) [(img3, "a"), (img4, "b")])
      "c" = -1 := by
  have h := claim_C4_lookup_slot_registration_order [(img3, "a"), (img4, "b")]
    (by decide) (by decide) (by decide)
  exact ⟨by simpa using h.1 1 (by decide), h.2 "c" (by decide)⟩

/-- C6: `FindMaterial` on an empty registry returns `false` with the caller's
record untouched; on a non-empty registry with no matching tag it returns
`true` while leaving the caller's record exactly as it was. -/
theorem claim_C6_material_lookup_fallback (s : SceneState) (tag : String)
    (m : OBJECT_MATERIAL) :
    (s.objectMaterials = [] → SceneManager.FindMaterial s tag m = (false, m))
    ∧ (s.objectMaterials ≠ [] →
        (∀ e ∈ s.objectMaterials, e.tag ≠ tag) →
        SceneManager.FindMaterial s tag m = (true, m)) := by
  constructor
  · intro h
    simp [SceneManager.FindMaterial, h]
  · intro hne hmiss
    have hlen0 : ¬ s.objectMaterials.length = 0 := by
      simpa [List.length_eq_zero] using hne
    simp [SceneManager.FindMaterial, hlen0, findMaterialLoop_miss _ _ _ hmiss]

/-- Witness for C6: empty registry, and the four-material registry with an
unknown tag. -/
theorem claim_C6_witness :
    SceneManager.FindMaterial (initialState true) "matte" junkMaterial
      = (false, junkMaterial)
    ∧ SceneManager.FindMaterial materialState "nope" junkMaterial
      = (true, junkMaterial) := by
  constructor
  · exact (claim_C6_material_lookup_fallback (initialState true) "matte"
      junkMaterial).1 rfl
  · exact (claim_C6_material_lookup_fallback materialState "nope"
      junkMaterial).2 (by simp [materialState, SceneManager.DefineObjectMaterials])
      materialState_tags

/-- C7: `CreateGLTexture` returns `false` with the full state untouched on a
decode failure, and returns `false` with the registry (entries and
occupied-slot count) untouched when the decoded channel count is neither 3
nor 4. -/
theorem claim_C7_register_failure_no_mutation (s : SceneState) (tag : String) :
    SceneManager.CreateGLTexture s none tag = (false, s)
    ∧ ∀ img : SceneManager.DecodeResult,
        img.colorChannels ≠ 3 → img.colorChannels ≠ 4 →
        (SceneManager.CreateGLTexture s (some img) tag).1 = false
        ∧ ((SceneManager.CreateGLTexture s (some img) tag).2).textureIDs
            = s.textureIDs
        ∧ ((SceneManager.CreateGLTexture s (some img) tag).2).loadedTextures
            = s.loadedTextures := by
  refine ⟨rfl, ?_⟩
  intro img h3 h4
  have hcond : ¬ (img.colorChannels = 3 ∨ img.colorChannels = 4) := by
    tauto
  refine ⟨?_, ?_, ?_⟩ <;>
    simp [SceneManager.CreateGLTexture, hcond, SceneState.loadedTextures]

/-- Witness for C7: a decode failure and a 2-channel decode on the
one-texture state. -/
theorem claim_C7_witness :
    SceneManager.CreateGLTexture (initialState true) none "x"
      = (false, initialState true)
    ∧ (SceneManager.CreateGLTexture oneTextureState (some img2) "x").1 = false
    ∧ ((SceneManager.CreateGLTexture oneTextureState (some img2) "x").2).textureIDs
        = oneTextureState.textureIDs := by
  refine ⟨(claim_C7_register_failure_no_mutation (initialState true) "x").1,
    ?_, ?_⟩
  · exact ((claim_C7_register_failure_no_mutation oneTextureState "x").2 img2
      (by decide) (by decide)).1
  · exact ((claim_C7_register_failure_no_mutation oneTextureState "x").2 img2
      (by decide) (by decide)).2.1

/-- C1 (code bug): on a state whose 16 slots are all occupied, a further
`CreateGLTexture` call with a successfully decoded 3-channel image does NOT
fail — the source has no capacity check, so it returns `true` and grows the
occupied-slot count to 17 (in C++ this is an out-of-bounds write into the
16-element `m_textureIDs` array). -/
theorem claim_C1_capacity_overflow :
    full16State.loadedTextures = 16
    ∧ (SceneManager.CreateGLTexture full16State (some img3) "t16").1 = true
    ∧ ((SceneManager.CreateGLTexture full16State (some img3) "t16").2).loadedTextures
        = 17 := by
  refine ⟨?_, ?_, ?_⟩ <;> decide

/-- C3 (code bug): `DestroyGLTextures` on a state with one registered texture
(GL name 7, one live GL object).  The destroy loop calls `glGenTextures`
instead of `glDeleteTextures`: afterwards the old handle 7 is still live and
a second object (name 8) has even been allocated — nothing is released.  The
count-reset and lookup-miss parts of the claim do hold, and a second call
releases nothing further (it frees nothing at all). -/
theorem claim_C3_teardown_leaks_handles :
    (SceneManager.DestroyGLTextures oneTextureState).glLive = [7, 8]
    ∧ (7 : Int) ∈ (SceneManager.DestroyGLTextures oneTextureState).glLive
    ∧ (SceneManager.DestroyGLTextures oneTextureState).loadedTextures = 0
    ∧ SceneManager.FindTextureSlot
        (SceneManager.DestroyGLTextures oneTextureState) "brick" = -1
    ∧ SceneManager.FindTextureID
        (SceneManager.DestroyGLTextures oneTextureState) "brick" = -1
    ∧ (SceneManager.DestroyGLTextures
        (SceneManager.DestroyGLTextures oneTextureState)).glLive
        = (SceneManager.DestroyGLTextures oneTextureState).glLive := by
  refine ⟨?_, ?_, ?_, ?_, ?_, ?_⟩ <;> decide

/-- C2 counterexample: on the four-material registry with unknown tag
`"nope"`, `SetShaderMaterial` is NOT free of uniform writes — it pushes
exactly three uniforms (diffuse, specular, shininess taken from its
untouched local record), because `FindMaterial` answers `true` whenever the
registry is non-empty. -/
theorem claim_C2_counterexample :
    SceneManager.SetShaderMaterial materialState junkMaterial "nope" ≠ []
    ∧ (SceneManager.SetShaderMaterial materialState junkMaterial "nope").length
        = 3 := by
  have h := setShaderMaterial_miss materialState junkMaterial "nope"
    (by simp [materialState, SceneManager.DefineObjectMaterials])
    materialState_tags
  rw [h]
  exact ⟨by simp, rfl⟩

/-- C2 amended: on every non-empty material registry, a `SetShaderMaterial`
call with a tag matching no registered material DOES write uniforms — it
pushes the diffuse-color, specular-color and shininess uniforms with the
contents of its freshly created local material record (indeterminate,
modelled by `junk`), which `FindMaterial` leaves untouched on a miss. -/
theorem claim_C2_amended_junk_pushed_on_miss (s : SceneState)
    (junk : OBJECT_MATERIAL) (tag : String)
    (hne : s.objectMaterials ≠ [])
    (hmiss : ∀ e ∈ s.objectMaterials, e.tag ≠ tag) :
    SceneManager.SetShaderMaterial s junk tag =
      [.setVec3 "material.diffuseColor" junk.diffuseColor,
       .setVec3 "material.specularColor" junk.specularColor,
       .setFloat "material.shininess" junk.shininess] :=
  setShaderMaterial_miss s junk tag hne hmiss

/-- Witness for the amended C2 at the four-material registry. -/
theorem claim_C2_witness :
    SceneManager.SetShaderMaterial materialState junkMaterial "nope" =
      [.setVec3 "material.diffuseColor" junkMaterial.diffuseColor,
       .setVec3 "material.specularColor" junkMaterial.specularColor,
       .setFloat "material.shininess" junkMaterial.shininess] :=
  claim_C2_amended_junk_pushed_on_miss materialState junkMaterial "nope"
    (by simp [materialState, SceneManager.DefineObjectMaterials])
    materialState_tags

/-- C9: with a non-null shader manager, `SetShaderColor` pushes the
texturing-disabled flag (`bUseTexture` as int 0) and the RGBA color uniform;
`SetShaderTexture` pushes the texturing-enabled flag (`bUseTexture` as
int 1) and the slot resolved by `FindTextureSlot` as the sampler uniform,
and on an unregistered tag that forwarded slot is the sentinel `-1`. -/
theorem claim_C9_color_and_texture_pushes (s : SceneState)
    (h : s.shaderPresent = true) :
    (∀ r g b a : ℝ, SceneManager.SetShaderColor s r g b a =
      [.setInt g_UseTextureName 0, .setVec4 g_ColorValueName ![r, g, b, a]])
    ∧ (∀ tag, SceneManager.SetShaderTexture s tag =
      [.setInt g_UseTextureName 1,
       .setSampler2D g_TextureValueName (SceneManager.FindTextureSlot s tag)])
    ∧ (∀ tag, (∀ e ∈ s.textureIDs, e.tag ≠ tag) →
      SceneManager.SetShaderTexture s tag =
        [.setInt g_UseTextureName 1, .setSampler2D g_TextureValueName (-1)]) := by
  refine ⟨?_, ?_, ?_⟩
  · intro r g b a
    simp [SceneManager.SetShaderColor, h]
  · intro tag
    simp [SceneManager.SetShaderTexture, h]
  · intro tag hmiss
    simp [SceneManager.SetShaderTexture, h, SceneManager.FindTextureSlot,
      findTextureSlotLoop_miss _ _ _ hmiss]

/-- Witness for C9 on the one-texture state, with a registered and an
unregistered tag. -/
theorem claim_C9_witness :
    SceneManager.SetShaderColor oneTextureState 1 0 0 1 =
      [.setInt g_UseTextureName 0, .setVec4 g_ColorValueName ![1, 0, 0, 1]]
    ∧ SceneManager.SetShaderTexture oneTextureState "brick" =
      [.setInt g_UseTextureName 1,
       .setSampler2D g_TextureValueName
         (SceneManager.FindTextureSlot oneTextureState "brick")]
    ∧ SceneManager.SetShaderTexture oneTextureState "nope" =
      [.setInt g_UseTextureName 1, .setSampler2D g_TextureValueName (-1)] := by
  have h := claim_C9_color_and_texture_pushes oneTextureState rfl
  refine ⟨h.1 1 0 0 1, h.2.1 "brick", h.2.2 "nope" ?_⟩
  intro e he
  simp only [oneTextureState, List.mem_cons, List.not_mem_nil, or_false] at he
  subst he
  decide

/-- C10: with a null shader-manager pointer, `SetTransformations`,
`SetShaderColor`, `SetShaderTexture` and `SetTextureUVScale` push no
uniforms at all. -/
theorem claim_C10_null_shader_noop (s : SceneState)
    (h : s.shaderPresent = false) :
    (∀ (sc : Fin 3 → ℝ) (rx ry rz : ℝ) (pos : Fin 3 → ℝ),
      SceneManager.SetTransformations s sc rx ry rz pos = [])
    ∧ (∀ r g b a : ℝ, SceneManager.SetShaderColor s r g b a = [])
    ∧ (∀ tag, SceneManager.SetShaderTexture s tag = [])
    ∧ (∀ u v : ℝ, SceneManager.SetTextureUVScale s u v = []) := by
  refine ⟨?_, ?_, ?_, ?_⟩ <;> intros <;>
    simp [SceneManager.SetTransformations, SceneManager.SetShaderColor,
      SceneManager.SetShaderTexture, SceneManager.SetTextureUVScale, h]

lemma renderElement_fields_congr (s s' : SceneState) (junk : OBJECT_MATERIAL)
    (e : SceneElement)
    (h1 : s.textureIDs = s'.textureIDs)
    (h2 : s.objectMaterials = s'.objectMaterials)
    (h3 : s.shaderPresent = s'.shaderPresent) :
    SceneManager.renderElement s junk e = SceneManager.renderElement s' junk e := by
  unfold SceneManager.renderElement SceneManager.SetTransformations
    SceneManager.SetShaderTexture SceneManager.SetShaderColor
    SceneManager.SetShaderMaterial SceneManager.FindMaterial
    SceneManager.FindTextureSlot
  simp only [h1, h2, h3]

/-- C8: with a non-null shader manager, running the render phase twice with
no setup-phase mutation in between yields two identical ordered traces of
uniform pushes and draw invocations — `RenderScene` only touches
texture-unit bindings (`BindGLTextures`), never the texture or material
registries the trace is computed from. -/
theorem claim_C8_render_replay_determinism (s : SceneState)
    (junk : OBJECT_MATERIAL) (h : s.shaderPresent = true) :
    (SceneManager.RenderScene (SceneManager.RenderScene s junk).1 junk).2
      = (SceneManager.RenderScene s junk).2 := by
  show ((sceneElements.map (SceneManager.renderElement
      (SceneManager.BindGLTextures (SceneManager.BindGLTextures s)) junk)).flatten)
    = ((sceneElements.map (SceneManager.renderElement
      (SceneManager.BindGLTextures s) junk)).flatten)
  exact congrArg List.flatten (List.map_congr_left
    (fun e _ => renderElement_fields_congr _ _ junk e rfl rfl rfl))

/-- Witness for C8 at the one-texture state. -/
theorem claim_C8_witness :
    (SceneManager.RenderScene
      (SceneManager.RenderScene oneTextureState junkMaterial).1 junkMaterial).2
      = (SceneManager.RenderScene oneTextureState junkMaterial).2 :=
  claim_C8_render_replay_determinism oneTextureState junkMaterial rfl

lemma glmNormalize_unitX : glmNormalize ![1, 0, 0] = ![1, 0, 0] := by
  funext i
  fin_cases i <;> simp [glmNormalize]

lemma glmNormalize_unitY : glmNormalize ![0, 1, 0] = ![0, 1, 0] := by
  funext i
  fin_cases i <;> simp [glmNormalize]

lemma glmNormalize_unitZ : glmNormalize ![0, 0, 1] = ![0, 0, 1] := by
  funext i
  fin_cases i <;> simp [glmNormalize]

lemma glmRotate_unitX (a : ℝ) : glmRotate a ![1, 0, 0] = specRotateX a := by
  unfold glmRotate specRotateX
  rw [glmNormalize_unitX]
  ext i j
  fin_cases i <;> fin_cases j <;> simp

lemma glmRotate_unitY (a : ℝ) : glmRotate a ![0, 1, 0] = specRotateY a := by
  unfold glmRotate specRotateY
  rw [glmNormalize_unitY]
  ext i j
  fin_cases i <;> fin_cases j <;> simp

lemma glmRotate_unitZ (a : ℝ) : glmRotate a ![0, 0, 1] = specRotateZ a := by
  unfold glmRotate specRotateZ
  rw [glmNormalize_unitZ]
  ext i j
  fin_cases i <;> fin_cases j <;> simp

lemma modelViewMatrix_eq_spec (sc : Fin 3 → ℝ) (rx ry rz : ℝ)
    (t : Fin 3 → ℝ) :
    SceneManager.modelViewMatrix sc rx ry rz t = specModelMatrix sc rx ry rz t := by
  unfold SceneManager.modelViewMatrix specModelMatrix
  rw [glmRotate_unitX, glmRotate_unitY, glmRotate_unitZ]

lemma modelViewMatrix_concrete_point :
    (SceneManager.modelViewMatrix ![2, 1, 1] 0 90 0 ![1, 0, 0]).mulVec
      ![1, 0, 0, 1] = ![1, 0, -2, 1] := by
  rw [modelViewMatrix_eq_spec]
  unfold specModelMatrix
  have hrad0 : glmRadians 0 = 0 := by simp [glmRadians]
  have hrad90 : glmRadians 90 = Real.pi / 2 := by unfold glmRadians; ring
  rw [hrad0, hrad90]
  have h1 : (glmScale ![2, 1, 1]).mulVec ![1, 0, 0, 1] = ![2, 0, 0, 1] := by
    funext i
    fin_cases i <;>
      simp [glmScale, Matrix.mulVec, Matrix.dotProduct, Fin.sum_univ_four]
  have h2 : (specRotateX 0).mulVec ![2, 0, 0, 1] = ![2, 0, 0, 1] := by
    funext i
    fin_cases i <;>
      simp [specRotateX, Matrix.mulVec, Matrix.dotProduct, Fin.sum_univ_four]
  have h3 : (specRotateY (Real.pi / 2)).mulVec ![2, 0, 0, 1] = ![0, 0, -2, 1] := by
    funext i
    fin_cases i <;>
      simp [specRotateY, Matrix.mulVec, Matrix.dotProduct, Fin.sum_univ_four,
        Real.cos_pi_div_two, Real.sin_pi_div_two]
  have h4 : (specRotateZ 0).mulVec ![0, 0, -2, 1] = ![0, 0, -2, 1] := by
    funext i
    fin_cases i <;>
      simp [specRotateZ, Matrix.mulVec, Matrix.dotProduct, Fin.sum_univ_four]
  have h5 : (glmTranslate ![1, 0, 0]).mulVec ![0, 0, -2, 1] = ![1, 0, -2, 1] := by
    funext i
    fin_cases i <;>
      simp [glmTranslate, Matrix.mulVec, Matrix.dotProduct, Fin.sum_univ_four]
  rw [← Matrix.mulVec_mulVec, ← Matrix.mulVec_mulVec, ← Matrix.mulVec_mulVec,
    ← Matrix.mulVec_mulVec, h1, h2, h3, h4, h5]

/-- C5: with a non-null shader manager, `SetTransformations` pushes exactly
the model matrix `Translate(t) · RotateZ(rz) · RotateY(ry) · RotateX(rx) ·
Scale(s)` (degrees converted to radians, right-handed axis rotations), and
that matrix at scale (2,1,1), rotation (0,90,0) degrees, translation
(1,0,0) maps the object-space point (1,0,0) to world position (1,0,−2). -/
theorem claim_C5_transform_composition (s : SceneState)
    (h : s.shaderPresent = true) (sc : Fin 3 → ℝ) (rx ry rz : ℝ)
    (t : Fin 3 → ℝ) :
    SceneManager.SetTransformations s sc rx ry rz t
      = [.setMat4 g_ModelName (specModelMatrix sc rx ry rz t)]
    ∧ (SceneManager.modelViewMatrix ![2, 1, 1] 0 90 0 ![1, 0, 0]).mulVec
        ![1, 0, 0, 1] = ![1, 0, -2, 1] := by
  refine ⟨?_, modelViewMatrix_concrete_point⟩
  simp [SceneManager.SetTransformations, h, modelViewMatrix_eq_spec]

/-- Witness for C5 on the one-texture state at the regression-check input. -/
theorem claim_C5_witness :
    SceneManager.SetTransformations oneTextureState ![2, 1, 1] 0 90 0 ![1, 0, 0]
      = [.setMat4 g_ModelName (specModelMatrix ![2, 1, 1] 0 90 0 ![1, 0, 0])]
    ∧ (SceneManager.modelViewMatrix ![2, 1, 1] 0 90 0 ![1, 0, 0]).mulVec
        ![1, 0, 0, 1] = ![1, 0, -2, 1] :=
  claim_C5_transform_composition oneTextureState rfl ![2, 1, 1] 0 90 0 ![1, 0, 0]

/-- Witness for C10 on the null-shader constructor state. -/
theorem claim_C10_witness :
    SceneManager.SetTransformations (initialState false) ![1, 1, 1] 0 0 0
      ![0, 0, 0] = []
    ∧ SceneManager.SetShaderColor (initialState false) 1 0 0 1 = []
    ∧ SceneManager.SetShaderTexture (initialState false) "brick" = []
    ∧ SceneManager.SetTextureUVScale (initialState false) 2 2 = [] := by
  have h := claim_C10_null_shader_noop (initialState false) rfl
  exact ⟨h.1 ![1, 1, 1] 0 0 0 ![0, 0, 0], h.2.1 1 0 0 1, h.2.2.1 "brick",
    h.2.2.2 2 2⟩
